import Mathlib

/-!
Shallow embedding of the DS3231 RTC driver (ds3231.c / ds3231.h).

The abstract bus transport of hal.h is modelled by a `Device` state: the
register file of the peripheral together with two health flags saying whether
register reads resp. writes succeed.  Machine bytes are `Nat` with explicit
`% 256` where C performs a conversion to `uint8_t`; C `int` fields of
`struct tm` are `Int`.  Each driver function is a Lean function from the
device state (plus its C arguments) to the pair of its C return value and
the device state after the call; out-parameters become extra components of
the result, with the prior value held by the caller passed in where the C function can
leave the out-parameter untouched.
-/

/-! Register addresses and bit masks from ds3231.h. -/

def DS3231_ADDR : Nat := 0x68

def DS3231_STAT_OSCILLATOR : Nat := 0x80

def DS3231_STAT_32KHZ : Nat := 0x08

def DS3231_STAT_ALARM_2 : Nat := 0x02

def DS3231_STAT_ALARM_1 : Nat := 0x01

def DS3231_CTRL_OSCILLATOR : Nat := 0x80

def DS3231_CTRL_TEMPCONV : Nat := 0x20

def DS3231_CTRL_ALARM_INTS : Nat := 0x04

def DS3231_CTRL_ALARM2_INT : Nat := 0x02

def DS3231_CTRL_ALARM1_INT : Nat := 0x01

def DS3231_ALARM_WDAY : Nat := 0x40

def DS3231_ALARM_NOTSET : Nat := 0x80

def DS3231_ADDR_TIME : Nat := 0x00

def DS3231_ADDR_ALARM1 : Nat := 0x07

def DS3231_ADDR_ALARM2 : Nat := 0x0b

def DS3231_ADDR_CONTROL : Nat := 0x0e

def DS3231_ADDR_STATUS : Nat := 0x0f

def DS3231_ADDR_AGING : Nat := 0x10

def DS3231_ADDR_TEMP : Nat := 0x11

def DS3231_12HOUR_FLAG : Nat := 0x40

def DS3231_12HOUR_MASK : Nat := 0x1f

def DS3231_PM_FLAG : Nat := 0x20

def DS3231_MONTH_MASK : Nat := 0x1f

/-! The anonymous SET/CLEAR/REPLACE enum of ds3231.h. -/

def DS3231_SET : Nat := 0

def DS3231_CLEAR : Nat := 1

def DS3231_REPLACE : Nat := 2

/-! ds3231_alarm_t. -/

def DS3231_ALARM_NONE : Nat := 0

def DS3231_ALARM_1 : Nat := 1

def DS3231_ALARM_2 : Nat := 2

def DS3231_ALARM_BOTH : Nat := 3

/-! ds3231_alarm1_rate_t. -/

def DS3231_ALARM1_EVERY_SECOND : Nat := 0

def DS3231_ALARM1_MATCH_SEC : Nat := 1

def DS3231_ALARM1_MATCH_SECMIN : Nat := 2

def DS3231_ALARM1_MATCH_SECMINHOUR : Nat := 3

def DS3231_ALARM1_MATCH_SECMINHOURDAY : Nat := 4

def DS3231_ALARM1_MATCH_SECMINHOURDATE : Nat := 5

/-! ds3231_alarm2_rate_t. -/

def DS3231_ALARM2_EVERY_MIN : Nat := 0

def DS3231_ALARM2_MATCH_MIN : Nat := 1

def DS3231_ALARM2_MATCH_MINHOUR : Nat := 2

def DS3231_ALARM2_MATCH_MINHOURDAY : Nat := 3

def DS3231_ALARM2_MATCH_MINHOURDATE : Nat := 4

/-! ds3231_sqwave_freq_t. -/

def DS3231_SQWAVE_1HZ : Nat := 0x00

def DS3231_SQWAVE_1024HZ : Nat := 0x08

def DS3231_SQWAVE_4096HZ : Nat := 0x10

def DS3231_SQWAVE_8192HZ : Nat := 0x18

/-- The C `struct tm` fields the driver reads and writes (all C `int`). -/
structure tm where
  tm_sec : Int
  tm_min : Int
  tm_hour : Int
  tm_wday : Int
  tm_mday : Int
  tm_mon : Int
  tm_year : Int
  tm_isdst : Int
deriving DecidableEq, Repr

/-- C conversion of an `int` value to `uint8_t` (reduction modulo 256;
`Int.emod` is non-negative here, so `toNat` is faithful). -/
def byte_of_int (i : Int) : Nat :=
  (i % 256).toNat

/-- Eight-bit complement: what `~bits` denotes once ANDed into a `uint8_t`. -/
def not8 (b : Nat) : Nat :=
  255 - b % 256

/-- State of the abstract transport of hal.h: the register file of the
peripheral (one byte per address) and whether register reads resp. writes
currently succeed on the bus. -/
structure Device where
  reg : Nat → Nat
  readFails : Bool
  writeFails : Bool

/-- Transport read `hal_i2c_read_reg dev reg size`: burst read of `size` bytes starting at
register `reg`; the `Bool` is the C return value.  On transport failure the
buffer of the C caller is indeterminate; the model supplies the register bytes,
and no theorem relies on them when the read has failed. -/
def hal_i2c_read_reg (dev : Device) (reg : Nat) (size : Nat) : Bool × List Nat :=
  (!dev.readFails, (List.range size).map (fun i => dev.reg (reg + i)))

/-- Register file after a burst write of `data` starting at `addr`. -/
def writeBytes (f : Nat → Nat) (addr : Nat) (data : List Nat) : Nat → Nat :=
  fun a => if addr ≤ a ∧ a < addr + data.length then data.getD (a - addr) 0 else f a

/-- Transport write `hal_i2c_write_reg dev reg data`: burst write starting at register
`reg`; the `Bool` is the C return value.  A failed write leaves the
register file unchanged. -/
def hal_i2c_write_reg (dev : Device) (reg : Nat) (data : List Nat) : Bool × Device :=
  if dev.writeFails then (false, dev)
  else (true, { dev with reg := writeBytes dev.reg reg data })

/-- bcd2dec from ds3231.c: `(val >> 4) * 10 + (val & 0x0f)` on a `uint8_t`
argument (the result is at most 165, so the `uint8_t` return conversion is
the identity). -/
def bcd2dec (val : Nat) : Nat :=
  Nat.shiftRight (val % 256) 4 * 10 + Nat.land (val % 256) 0x0f

/-- dec2bcd from ds3231.c: `((val / 10) << 4) + (val % 10)` on a `uint8_t`
argument, converted back to `uint8_t` on return. -/
def dec2bcd (val : Nat) : Nat :=
  (Nat.shiftLeft (val % 256 / 10) 4 + val % 256 % 10) % 256

/-- The 7-byte buffer ds3231_set_time builds before its single write. -/
def ds3231_time_bytes (time : tm) : List Nat :=
  [ dec2bcd (byte_of_int time.tm_sec),
    dec2bcd (byte_of_int time.tm_min),
    dec2bcd (byte_of_int time.tm_hour),
    dec2bcd (byte_of_int (time.tm_wday + 1)),
    dec2bcd (byte_of_int time.tm_mday),
    dec2bcd (byte_of_int (time.tm_mon + 1)),
    dec2bcd (byte_of_int (time.tm_year - 2000)) ]

/-- ds3231_set_time: encode and write 7 bytes at DS3231_ADDR_TIME,
returning the transport outcome.  No field validation is performed. -/
def ds3231_set_time (dev : Device) (time : tm) : Bool × Device :=
  hal_i2c_write_reg dev DS3231_ADDR_TIME (ds3231_time_bytes time)

/-- The decoding ds3231_get_time applies to the 7 bytes it has read. -/
def ds3231_decode_time (data : List Nat) : tm :=
  { tm_sec := bcd2dec (data.getD 0 0)
    tm_min := bcd2dec (data.getD 1 0)
    tm_hour :=
      if Nat.land (data.getD 2 0) DS3231_12HOUR_FLAG ≠ 0 then
        if Nat.land (data.getD 2 0) DS3231_PM_FLAG ≠ 0 then
          ((bcd2dec (Nat.land (data.getD 2 0) DS3231_12HOUR_MASK) : Int) - 1) + 12
        else
          (bcd2dec (Nat.land (data.getD 2 0) DS3231_12HOUR_MASK) : Int) - 1
      else
        (bcd2dec (data.getD 2 0) : Int)
    tm_wday := (bcd2dec (data.getD 3 0) : Int) - 1
    tm_mday := (bcd2dec (data.getD 4 0) : Int)
    tm_mon := (bcd2dec (Nat.land (data.getD 5 0) DS3231_MONTH_MASK) : Int) - 1
    tm_year := (bcd2dec (data.getD 6 0) : Int) + 2000
    tm_isdst := 0 }

/-- ds3231_get_time: read 7 bytes at DS3231_ADDR_TIME and decode them.
The source discards the transport result and returns true
unconditionally. -/
def ds3231_get_time (dev : Device) : Bool × tm :=
  let rd := hal_i2c_read_reg dev DS3231_ADDR_TIME 7
  (true, ds3231_decode_time rd.snd)

/-- The variable-length buffer ds3231_set_alarm builds: up to 4 bytes for
alarm 1 followed by up to 3 bytes for alarm 2, each field gated on the
requested rate exactly as in the source (note the alarm-1 day byte ANDs
the BCD weekday with DS3231_ALARM_WDAY, as written in ds3231.c). -/
def ds3231_alarm_bytes (alarms : Nat) (time1 : tm) (option1 : Nat)
    (time2 : tm) (option2 : Nat) : List Nat :=
  (if alarms ≠ DS3231_ALARM_2 then
    [ if option1 ≥ DS3231_ALARM1_MATCH_SEC then dec2bcd (byte_of_int time1.tm_sec)
      else DS3231_ALARM_NOTSET,
      if option1 ≥ DS3231_ALARM1_MATCH_SECMIN then dec2bcd (byte_of_int time1.tm_min)
      else DS3231_ALARM_NOTSET,
      if option1 ≥ DS3231_ALARM1_MATCH_SECMINHOUR then dec2bcd (byte_of_int time1.tm_hour)
      else DS3231_ALARM_NOTSET,
      if option1 = DS3231_ALARM1_MATCH_SECMINHOURDAY then
        Nat.land (dec2bcd (byte_of_int (time1.tm_wday + 1))) DS3231_ALARM_WDAY
      else if option1 = DS3231_ALARM1_MATCH_SECMINHOURDATE then
        dec2bcd (byte_of_int time1.tm_mday)
      else DS3231_ALARM_NOTSET ]
  else []) ++
  (if alarms ≠ DS3231_ALARM_1 then
    [ if option2 ≥ DS3231_ALARM2_MATCH_MIN then dec2bcd (byte_of_int time2.tm_min)
      else DS3231_ALARM_NOTSET,
      if option2 ≥ DS3231_ALARM2_MATCH_MINHOUR then dec2bcd (byte_of_int time2.tm_hour)
      else DS3231_ALARM_NOTSET,
      if option2 = DS3231_ALARM2_MATCH_MINHOURDAY then
        Nat.land (dec2bcd (byte_of_int (time2.tm_wday + 1))) DS3231_ALARM_WDAY
      else if option2 = DS3231_ALARM2_MATCH_MINHOURDATE then
        dec2bcd (byte_of_int time2.tm_mday)
      else DS3231_ALARM_NOTSET ]
  else [])

/-- ds3231_set_alarm: build the alarm buffer and write it at the Alarm2
base address when `alarms = DS3231_ALARM_2`, otherwise at the Alarm1 base
address, returning the transport outcome. -/
def ds3231_set_alarm (dev : Device) (alarms : Nat) (time1 : tm) (option1 : Nat)
    (time2 : tm) (option2 : Nat) : Bool × Device :=
  hal_i2c_write_reg dev
    (if alarms = DS3231_ALARM_2 then DS3231_ADDR_ALARM2 else DS3231_ADDR_ALARM1)
    (ds3231_alarm_bytes alarms time1 option1 time2 option2)

/-- ds3231_get_flag: read one byte at `addr`; on success mask it into the
out-parameter, on failure return the transport result leaving the
out-parameter at its prior value `flag0`. -/
def ds3231_get_flag (dev : Device) (addr : Nat) (mask : Nat) (flag0 : Nat) : Bool × Nat :=
  let rd := hal_i2c_read_reg dev addr 1
  if rd.fst ≠ true then (rd.fst, flag0)
  else (true, Nat.land (rd.snd.getD 0 0) mask)

/-- ds3231_set_flag: read one byte at `addr`, compute the SET/CLEAR/REPLACE
transform — and then, exactly as in the source, issue a second READ (not a
write) at `addr`: the transformed byte is discarded and the register file
is never modified.  Returns the result of the second read on the success path. -/
def ds3231_set_flag (dev : Device) (addr : Nat) (bits : Nat) (mode : Nat) : Bool × Device :=
  let rd := hal_i2c_read_reg dev addr 1
  if rd.fst ≠ true then (rd.fst, dev)
  else
    let data := rd.snd.getD 0 0
    let _transformed :=
      if mode = DS3231_REPLACE then bits
      else if mode = DS3231_SET then Nat.lor data bits
      else Nat.land data (not8 bits)
    let rd2 := hal_i2c_read_reg dev addr 1
    (rd2.fst, dev)

/-- ds3231_get_oscillator_stop_flag: reads the status register through
ds3231_get_flag, discards its result, and returns true unconditionally;
the out-parameter is the truth value of the masked byte. -/
def ds3231_get_oscillator_stop_flag (dev : Device) : Bool × Bool :=
  let g := ds3231_get_flag dev DS3231_ADDR_STATUS DS3231_STAT_OSCILLATOR 0
  (true, if g.snd ≠ 0 then true else false)

/-- ds3231_clear_oscillator_stop_flag. -/
def ds3231_clear_oscillator_stop_flag (dev : Device) : Bool × Device :=
  ds3231_set_flag dev DS3231_ADDR_STATUS DS3231_STAT_OSCILLATOR DS3231_CLEAR

/-- ds3231_get_alarm_flags; with `alarms0` the prior value of the out-parameter. -/
def ds3231_get_alarm_flags (dev : Device) (alarms0 : Nat) : Bool × Nat :=
  ds3231_get_flag dev DS3231_ADDR_STATUS DS3231_ALARM_BOTH alarms0

/-- ds3231_clear_alarm_flags. -/
def ds3231_clear_alarm_flags (dev : Device) (alarms : Nat) : Bool × Device :=
  ds3231_set_flag dev DS3231_ADDR_STATUS alarms DS3231_CLEAR

/-- ds3231_enable_alarm_ints. -/
def ds3231_enable_alarm_ints (dev : Device) (alarms : Nat) : Bool × Device :=
  ds3231_set_flag dev DS3231_ADDR_CONTROL (Nat.lor DS3231_CTRL_ALARM_INTS alarms) DS3231_SET

/-- ds3231_disable_alarm_ints. -/
def ds3231_disable_alarm_ints (dev : Device) (alarms : Nat) : Bool × Device :=
  ds3231_set_flag dev DS3231_ADDR_CONTROL alarms DS3231_CLEAR

/-- ds3231_enable_32khz. -/
def ds3231_enable_32khz (dev : Device) : Bool × Device :=
  ds3231_set_flag dev DS3231_ADDR_STATUS DS3231_STAT_32KHZ DS3231_SET

/-- ds3231_disable_32khz. -/
def ds3231_disable_32khz (dev : Device) : Bool × Device :=
  ds3231_set_flag dev DS3231_ADDR_STATUS DS3231_STAT_32KHZ DS3231_CLEAR

/-- ds3231_enable_squarewave. -/
def ds3231_enable_squarewave (dev : Device) : Bool × Device :=
  ds3231_set_flag dev DS3231_ADDR_CONTROL DS3231_CTRL_ALARM_INTS DS3231_CLEAR

/-- ds3231_disable_squarewave. -/
def ds3231_disable_squarewave (dev : Device) : Bool × Device :=
  ds3231_set_flag dev DS3231_ADDR_CONTROL DS3231_CTRL_ALARM_INTS DS3231_SET

/-- ds3231_set_squarewave_freq: read the control byte (result discarded,
`flag` stays 0 on a failed read), clear the frequency field, OR in the
requested code, hand the byte to ds3231_set_flag with REPLACE (whose
result is discarded), and return true unconditionally. -/
def ds3231_set_squarewave_freq (dev : Device) (freq : Nat) : Bool × Device :=
  let g := ds3231_get_flag dev DS3231_ADDR_CONTROL 0xff 0
  let flag := Nat.lor (Nat.land g.snd (not8 DS3231_SQWAVE_8192HZ)) freq
  let s := ds3231_set_flag dev DS3231_ADDR_CONTROL flag DS3231_REPLACE
  (true, s.snd)

/-- Reinterpretation as `int8_t` of a byte, as a mathematical integer. -/
def int8_of_byte (b : Nat) : Int :=
  if b % 256 < 128 then (b % 256 : Int) else (b % 256 : Int) - 256

/-- Reinterpretation as `int16_t` of a 16-bit word, as an integer. -/
def int16_as_int (w : Nat) : Int :=
  if w % 65536 < 32768 then (w % 65536 : Int) else (w % 65536 : Int) - 65536

/-- Sign extension of a byte to a 16-bit twos-complement word. -/
def sext8_16 (b : Nat) : Nat :=
  if b % 256 < 128 then b % 256 else b % 256 + 0xff00

/-- The raw-temperature combination `(int16_t)(int8_t)data[0] << 2 |
data[1] >> 6` of ds3231.c, computed bit-exactly on the 16-bit
twos-complement representation. -/
def ds3231_raw_of_bytes (b0 : Nat) (b1 : Nat) : Int :=
  int16_as_int (Nat.lor (Nat.shiftLeft (sext8_16 b0) 2) (Nat.shiftRight (b1 % 256) 6))

/-- ds3231_get_raw_temp: read 2 bytes at DS3231_ADDR_TEMP; on success
combine them, on failure return false leaving the out-parameter at its
prior value `temp0`. -/
def ds3231_get_raw_temp (dev : Device) (temp0 : Int) : Bool × Int :=
  let rd := hal_i2c_read_reg dev DS3231_ADDR_TEMP 2
  if rd.fst = true then (true, ds3231_raw_of_bytes (rd.snd.getD 0 0) (rd.snd.getD 1 0))
  else (false, temp0)

/-- ds3231_get_temp_integer: `t_int >> 2` is the arithmetic right shift of
the 10-bit raw value, i.e. flooring division by 4 (the result fits the
`int8_t` out-parameter exactly, so that conversion is the identity). -/
def ds3231_get_temp_integer (dev : Device) (temp0 : Int) : Bool × Int :=
  let r := ds3231_get_raw_temp dev 0
  if r.fst = true then (true, Int.fdiv r.snd 4) else (false, temp0)

/-- ds3231_get_temp_float: `t_int * 0.25`.  Multiplication of the 10-bit
raw value by 0.25 (a power of two) is exact in the C `float` type, so the
rationals model it faithfully. -/
def ds3231_get_temp_float (dev : Device) (temp0 : ℚ) : Bool × ℚ :=
  let r := ds3231_get_raw_temp dev 0
  if r.fst = true then (true, (r.snd : ℚ) * (1 / 4)) else (false, temp0)

/-! Concrete devices and calendar times used by witnesses and
counterexamples. -/

/-- Healthy device whose registers are all zero. -/
def dev0 : Device := ⟨fun _ => 0, false, false⟩

/-- Device whose transport reads and writes both fail. -/
def devFail : Device := ⟨fun _ => 0, true, true⟩

/-- Healthy device whose status register has the oscillator-stop bit set. -/
def devOsc : Device := ⟨fun a => if a = 0x0f then 0x80 else 0, false, false⟩

/-- Healthy device whose temperature registers read (0x19, 0x00). -/
def devTemp25 : Device := ⟨fun a => if a = 0x11 then 0x19 else 0, false, false⟩

/-- Healthy device whose temperature registers read (0xff, 0x00). -/
def devTempFF : Device := ⟨fun a => if a = 0x11 then 0xff else 0, false, false⟩

/-- Valid calendar time: 2021-06-15 (weekday 2), 13:45:30, DST flag 1. -/
def tmEx : tm := ⟨30, 45, 13, 2, 15, 5, 2021, 1⟩

/-- Invalid calendar time: second 75 and year 2150 are out of range. -/
def tmBad : tm := ⟨75, 0, 0, 0, 1, 0, 2150, 0⟩

/-! Helper lemmas. -/

/-- BCD roundtrip at the `Nat` level, by exhaustive evaluation. -/
theorem bcd_roundtrip_lt100 : ∀ n, n < 100 → bcd2dec (dec2bcd n) = n := by decide

/-- BCD of an hour below 24 never carries the 12-hour flag bit. -/
theorem bcd_no12flag_lt24 : ∀ n, n < 24 → Nat.land (dec2bcd n) 64 = 0 := by decide

/-- BCD of a month value below 13 is untouched by the month mask. -/
theorem bcd_month_mask_lt13 : ∀ n, n < 13 → Nat.land (dec2bcd n) 31 = dec2bcd n := by decide

/-- Conversion to `uint8_t` is `Int.toNat` on in-range values. -/
theorem byte_of_int_eq_toNat (i : Int) (h0 : 0 ≤ i) (h1 : i ≤ 255) :
    byte_of_int i = i.toNat := by
  unfold byte_of_int
  rw [Int.emod_eq_of_lt h0 (by omega)]

/-- BCD roundtrip through the `uint8_t` conversion. -/
theorem bcd_round_byte (i : Int) (h0 : 0 ≤ i) (h1 : i ≤ 99) :
    bcd2dec (dec2bcd (byte_of_int i)) = i.toNat := by
  rw [byte_of_int_eq_toNat i h0 (by omega)]
  exact bcd_roundtrip_lt100 i.toNat (by omega)

/-- Flag helper leaves the device unchanged: its write-back step is a
read, on every path. -/
theorem set_flag_preserves_device (dev : Device) (addr bits mode : Nat) :
    (ds3231_set_flag dev addr bits mode).snd = dev := by
  unfold ds3231_set_flag
  by_cases h : (hal_i2c_read_reg dev addr 1).fst ≠ true <;> simp [h]

/-- C1: refuted as stated; the code is the defect.  The flag
read-modify-write primitive ds3231_set_flag reads one byte and computes the
SET/CLEAR/REPLACE transform, but its final step invokes the transport READ
primitive instead of the write primitive, so the transformed byte is never
written back: the register file is unchanged for every address, mask and
mode.  Concretely, clearing the oscillator-stop bit (mask 0x80, mode CLEAR)
on a status register holding 0x80 reports success yet leaves the register
at 0x80, although the transformed value 0x80 AND NOT 0x80 is 0. -/
theorem ds3231_set_flag_never_writes :
    (∀ (dev : Device) (addr bits mode : Nat), (ds3231_set_flag dev addr bits mode).snd = dev) ∧
    (ds3231_clear_oscillator_stop_flag devOsc).fst = true ∧
    (ds3231_clear_oscillator_stop_flag devOsc).snd.reg DS3231_ADDR_STATUS = 0x80 ∧
    Nat.land 0x80 (not8 DS3231_STAT_OSCILLATOR) = 0 :=
  ⟨set_flag_preserves_device, by decide, by decide, by decide⟩

/-- C2: for every CalendarTime with second and minute 0..59, hour 0..23,
weekday 0..6, day-of-month 1..31, month 0..11 and year 2000..2099, decoding
the 7-byte register image produced by the time encoder yields the time back
unchanged, with the DST flag set to 0 (not observed) by the decoder. -/
theorem ds3231_time_roundtrip (t : tm)
    (hs0 : 0 ≤ t.tm_sec) (hs1 : t.tm_sec ≤ 59)
    (hm0 : 0 ≤ t.tm_min) (hm1 : t.tm_min ≤ 59)
    (hh0 : 0 ≤ t.tm_hour) (hh1 : t.tm_hour ≤ 23)
    (hw0 : 0 ≤ t.tm_wday) (hw1 : t.tm_wday ≤ 6)
    (hd0 : 1 ≤ t.tm_mday) (hd1 : t.tm_mday ≤ 31)
    (hn0 : 0 ≤ t.tm_mon) (hn1 : t.tm_mon ≤ 11)
    (hy0 : 2000 ≤ t.tm_year) (hy1 : t.tm_year ≤ 2099) :
    ds3231_decode_time (ds3231_time_bytes t) = { t with tm_isdst := 0 } := by
  obtain ⟨sec, mn, hour, wday, mday, mon, year, isdst⟩ := t
  simp only at hs0 hs1 hm0 hm1 hh0 hh1 hw0 hw1 hd0 hd1 hn0 hn1 hy0 hy1
  have hbsec := bcd_round_byte sec hs0 (by omega)
  have hbmin := bcd_round_byte mn hm0 (by omega)
  have hbhour := bcd_round_byte hour hh0 (by omega)
  have hbwday := bcd_round_byte (wday + 1) (by omega) (by omega)
  have hbmday := bcd_round_byte mday (by omega) (by omega)
  have hbyear := bcd_round_byte (year - 2000) (by omega) (by omega)
  have hbflag : Nat.land (dec2bcd (byte_of_int hour)) 64 = 0 := by
    rw [byte_of_int_eq_toNat hour hh0 (by omega)]
    exact bcd_no12flag_lt24 hour.toNat (by omega)
  have hbmon : bcd2dec (Nat.land (dec2bcd (byte_of_int (mon + 1))) 31) = (mon + 1).toNat := by
    rw [byte_of_int_eq_toNat (mon + 1) (by omega) (by omega)]
    rw [bcd_month_mask_lt13 (mon + 1).toNat (by omega)]
    exact bcd_roundtrip_lt100 (mon + 1).toNat (by omega)
  simp only [ds3231_time_bytes, ds3231_decode_time, List.getD_cons_zero, List.getD_cons_succ,
    DS3231_12HOUR_FLAG, DS3231_PM_FLAG, DS3231_MONTH_MASK, hbflag, hbsec, hbmin, hbhour,
    hbwday, hbmday, hbyear, hbmon, ne_eq, not_true_eq_false, if_false, tm.mk.injEq]
  norm_num
  omega

/-- Witness for C2 at the concrete valid time tmEx. -/
theorem ds3231_time_roundtrip_witness :
    (2000 ≤ tmEx.tm_year ∧ tmEx.tm_sec ≤ 59) ∧
    ds3231_decode_time (ds3231_time_bytes tmEx) = { tmEx with tm_isdst := 0 } :=
  ⟨by decide, ds3231_time_roundtrip tmEx (by decide) (by decide) (by decide) (by decide)
    (by decide) (by decide) (by decide) (by decide) (by decide) (by decide) (by decide)
    (by decide) (by decide) (by decide)⟩

/-- C3: refuted as stated; the code is the defect.  With target Alarm1 and
rate match-seconds-minutes-hours-day exactly 4 bytes are emitted, but the
4th byte is BCD(weekday+1) AND 0x40 = 0, because the source ANDs the
day-indicator bit into the BCD weekday instead of ORing it; the claimed
byte 0x40 OR BCD(weekday+1), which is 0x43 for weekday 2, is never
produced. -/
theorem ds3231_alarm1_day_byte_bug :
    (ds3231_alarm_bytes DS3231_ALARM_1 tmEx DS3231_ALARM1_MATCH_SECMINHOURDAY tmEx 0).length = 4 ∧
    (ds3231_alarm_bytes DS3231_ALARM_1 tmEx DS3231_ALARM1_MATCH_SECMINHOURDAY tmEx 0).getD 3 0 = 0 ∧
    Nat.lor DS3231_ALARM_WDAY (dec2bcd (byte_of_int (tmEx.tm_wday + 1))) = 0x43 ∧
    (0 : Nat) ≠ 0x43 :=
  ⟨by decide, by decide, by decide, by decide⟩

/-- Counterexample to C4: on a device whose transport reads and writes
fail, get-time, get-oscillator-stop-flag and set-squarewave-frequency all
still report success. -/
theorem ds3231_error_swallowed_counterexample :
    devFail.readFails = true ∧ devFail.writeFails = true ∧
    (ds3231_get_time devFail).fst = true ∧
    (ds3231_get_oscillator_stop_flag devFail).fst = true ∧
    (ds3231_set_squarewave_freq devFail DS3231_SQWAVE_4096HZ).fst = true :=
  ⟨rfl, rfl, rfl, rfl, rfl⟩

/-- C4 (amended): set-time, set-alarm and the temperature getters propagate
transport failure to the caller, but get-time, get-oscillator-stop-flag and
set-squarewave-frequency discard the transport result and return success
unconditionally. -/
theorem ds3231_error_propagation (d : Device) (t : tm) (al o1 o2 f : Nat) (ti : Int) (tq : ℚ)
    (hr : d.readFails = true) (hw : d.writeFails = true) :
    (ds3231_set_time d t).fst = false ∧
    (ds3231_set_alarm d al t o1 t o2).fst = false ∧
    (ds3231_get_raw_temp d ti).fst = false ∧
    (ds3231_get_temp_integer d ti).fst = false ∧
    (ds3231_get_temp_float d tq).fst = false ∧
    (ds3231_get_time d).fst = true ∧
    (ds3231_get_oscillator_stop_flag d).fst = true ∧
    (ds3231_set_squarewave_freq d f).fst = true := by
  refine ⟨?_, ?_, ?_, ?_, ?_, rfl, rfl, rfl⟩
  · simp [ds3231_set_time, hal_i2c_write_reg, hw]
  · simp [ds3231_set_alarm, hal_i2c_write_reg, hw]
  · simp [ds3231_get_raw_temp, hal_i2c_read_reg, hr]
  · simp [ds3231_get_temp_integer, ds3231_get_raw_temp, hal_i2c_read_reg, hr]
  · simp [ds3231_get_temp_float, ds3231_get_raw_temp, hal_i2c_read_reg, hr]

/-- Witness for the amended C4 at the concrete failing device. -/
theorem ds3231_error_propagation_witness :
    (ds3231_set_time devFail tmEx).fst = false ∧ (ds3231_get_time devFail).fst = true :=
  ⟨(ds3231_error_propagation devFail tmEx 1 1 1 8 0 0 rfl rfl).1,
   (ds3231_error_propagation devFail tmEx 1 1 1 8 0 0 rfl rfl).2.2.2.2.2.1⟩

/-- Counterexample to C5: tmBad has second 75 and year 2150, both outside
the representable ranges, yet set-time reports success and its 7-byte
write reaches the device: the year register (address 6) changes from 0 to
dec2bcd(150 mod 256) = 0xf0. -/
theorem ds3231_set_time_no_validation_counterexample :
    (tmBad.tm_sec = 75 ∧ tmBad.tm_year = 2150) ∧
    (ds3231_set_time dev0 tmBad).fst = true ∧
    (ds3231_set_time dev0 tmBad).snd.reg 6 = 0xf0 ∧
    dev0.reg 6 = 0 :=
  ⟨by decide, by decide, by decide, by decide⟩

/-- C5 (amended): set-time performs no range validation at all: for every
CalendarTime, valid or not, it issues the transport write of the 7 encoded
bytes (each field reduced to `uint8_t`), reports the transport outcome, and
when the transport accepts the write the bytes land in registers 0..6. -/
theorem ds3231_set_time_always_writes (d : Device) (t : tm) (i : Nat)
    (hw : d.writeFails = false) (hi : i < 7) :
    (ds3231_set_time d t).fst = true ∧
    (ds3231_set_time d t).snd.reg i = (ds3231_time_bytes t).getD i 0 := by
  constructor
  · simp [ds3231_set_time, hal_i2c_write_reg, hw]
  · have hlen : (ds3231_time_bytes t).length = 7 := rfl
    simp only [ds3231_set_time, hal_i2c_write_reg, hw, Bool.false_eq_true, if_false,
      writeBytes, DS3231_ADDR_TIME, hlen]
    rw [if_pos ⟨Nat.zero_le i, by omega⟩]
    simp

/-- Witness for the amended C5 at the invalid time tmBad, register 6. -/
theorem ds3231_set_time_always_writes_witness :
    (ds3231_set_time dev0 tmBad).fst = true ∧
    (ds3231_set_time dev0 tmBad).snd.reg 6 = (ds3231_time_bytes tmBad).getD 6 0 :=
  ⟨(ds3231_set_time_always_writes dev0 tmBad 6 rfl (by decide)).1,
   (ds3231_set_time_always_writes dev0 tmBad 6 rfl (by decide)).2⟩

/-- C6: refuted as stated; the code is the defect.  set-squarewave-frequency
computes the correct REPLACE byte (control AND NOT 0x18) OR freq, but hands
it to the flag helper whose write-back step is a read, so the control
register is never modified for any device or frequency: it keeps its prior
value c instead of becoming (c AND NOT 0x18) OR f.  Concretely, with the
control register at 0x00 and frequency 1024Hz (0x08) the register stays
0x00 although the claimed result is 0x08. -/
theorem ds3231_set_squarewave_freq_never_writes :
    (∀ (dev : Device) (freq : Nat), (ds3231_set_squarewave_freq dev freq).snd = dev) ∧
    (ds3231_set_squarewave_freq dev0 DS3231_SQWAVE_1024HZ).fst = true ∧
    (ds3231_set_squarewave_freq dev0 DS3231_SQWAVE_1024HZ).snd.reg DS3231_ADDR_CONTROL = 0 ∧
    Nat.lor (Nat.land (dev0.reg DS3231_ADDR_CONTROL) (not8 DS3231_SQWAVE_8192HZ))
      DS3231_SQWAVE_1024HZ = 0x08 := by
  refine ⟨?_, by decide, by decide, by decide⟩
  intro dev freq
  simp [ds3231_set_squarewave_freq, set_flag_preserves_device]

/-- C7: the raw temperature is decoded from the 2-byte register pair at
DS3231_ADDR_TEMP as (signed-high-byte shifted left by 2) OR (low-byte
shifted right by 6), and get-temperature-integer returns the arithmetic
right shift of the raw value by 2 bits (flooring division by 4);
consequently the pair (0x19, 0x00) decodes to raw 100, integer temperature
25 and float temperature 25.0, and the pair (0xff, 0x00) decodes to
integer temperature -1. -/
theorem ds3231_temperature_decode (d : Device) (ti : Int) (hr : d.readFails = false) :
    ds3231_get_raw_temp d ti
      = (true, ds3231_raw_of_bytes (d.reg DS3231_ADDR_TEMP) (d.reg (DS3231_ADDR_TEMP + 1))) ∧
    (ds3231_get_temp_integer d ti).snd
      = Int.fdiv (ds3231_raw_of_bytes (d.reg DS3231_ADDR_TEMP) (d.reg (DS3231_ADDR_TEMP + 1))) 4 ∧
    ds3231_raw_of_bytes 0x19 0x00 = 100 ∧
    (ds3231_get_raw_temp devTemp25 0).snd = 100 ∧
    (ds3231_get_temp_integer devTemp25 0).snd = 25 ∧
    (ds3231_get_temp_float devTemp25 0).snd = 25 ∧
    (ds3231_get_temp_integer devTempFF 0).snd = -1 := by
  refine ⟨?_, ?_, by decide, by decide, by decide, ?_, by decide⟩
  · simp [ds3231_get_raw_temp, hal_i2c_read_reg, hr, List.range_succ]
  · simp [ds3231_get_temp_integer, ds3231_get_raw_temp, hal_i2c_read_reg, hr, List.range_succ]
  · have h : (ds3231_get_raw_temp devTemp25 0).snd = 100 := by decide
    have hf : (ds3231_get_raw_temp devTemp25 0).fst = true := by decide
    simp only [ds3231_get_temp_float, hf, if_pos, h]
    norm_num

/-- Witness for C7 at the concrete device with temperature pair
(0x19, 0x00). -/
theorem ds3231_temperature_decode_witness :
    (ds3231_get_temp_integer devTemp25 0).snd = 25 :=
  (ds3231_temperature_decode devTemp25 0 rfl).2.2.2.2.1

/-- C8: for every integer n in 0..99, decodeBCD(encodeBCD(n)) = n for the
BCD conversion pair of ds3231.c. -/
theorem ds3231_bcd_roundtrip (n : Nat) (h : n ≤ 99) : bcd2dec (dec2bcd n) = n :=
  bcd_roundtrip_lt100 n (by omega)

/-- Witness for C8 at n = 42. -/
theorem ds3231_bcd_roundtrip_witness : 42 ≤ 99 ∧ bcd2dec (dec2bcd 42) = 42 :=
  ⟨by decide, ds3231_bcd_roundtrip 42 (by decide)⟩

/-- C9: with target Alarm2 and rate match-minutes-only, exactly 3 bytes are
written starting at the Alarm2 base address 0x0b: byte 0 is the BCD of the
requested minute and bytes 1 and 2 are the sentinel 0x80; registers outside
0x0b..0x0d are untouched. -/
theorem ds3231_alarm2_match_min (d : Device) (t1 : tm) (o1 : Nat) (t2 : tm)
    (hm0 : 0 ≤ t2.tm_min) (hm1 : t2.tm_min ≤ 59) (hw : d.writeFails = false) :
    ds3231_alarm_bytes DS3231_ALARM_2 t1 o1 t2 DS3231_ALARM2_MATCH_MIN
      = [dec2bcd t2.tm_min.toNat, 0x80, 0x80] ∧
    (ds3231_set_alarm d DS3231_ALARM_2 t1 o1 t2 DS3231_ALARM2_MATCH_MIN).fst = true ∧
    (ds3231_set_alarm d DS3231_ALARM_2 t1 o1 t2 DS3231_ALARM2_MATCH_MIN).snd.reg 0x0b
      = dec2bcd t2.tm_min.toNat ∧
    (ds3231_set_alarm d DS3231_ALARM_2 t1 o1 t2 DS3231_ALARM2_MATCH_MIN).snd.reg 0x0c = 0x80 ∧
    (ds3231_set_alarm d DS3231_ALARM_2 t1 o1 t2 DS3231_ALARM2_MATCH_MIN).snd.reg 0x0d = 0x80 ∧
    ∀ a, a < 0x0b ∨ 0x0d < a →
      (ds3231_set_alarm d DS3231_ALARM_2 t1 o1 t2 DS3231_ALARM2_MATCH_MIN).snd.reg a = d.reg a := by
  have hbytes : ds3231_alarm_bytes DS3231_ALARM_2 t1 o1 t2 DS3231_ALARM2_MATCH_MIN
      = [dec2bcd t2.tm_min.toNat, 0x80, 0x80] := by
    rw [← byte_of_int_eq_toNat t2.tm_min hm0 (by omega)]
    simp [ds3231_alarm_bytes, DS3231_ALARM_1, DS3231_ALARM_2, DS3231_ALARM2_MATCH_MIN,
      DS3231_ALARM2_MATCH_MINHOUR, DS3231_ALARM2_MATCH_MINHOURDAY,
      DS3231_ALARM2_MATCH_MINHOURDATE, DS3231_ALARM_NOTSET]
  have hsa : ds3231_set_alarm d DS3231_ALARM_2 t1 o1 t2 DS3231_ALARM2_MATCH_MIN
      = (true, { d with reg := writeBytes d.reg 0x0b [dec2bcd t2.tm_min.toNat, 0x80, 0x80] }) := by
    unfold ds3231_set_alarm
    rw [hbytes]
    simp [hal_i2c_write_reg, hw, DS3231_ALARM_2, DS3231_ADDR_ALARM2]
  refine ⟨hbytes, by rw [hsa], ?_, ?_, ?_, ?_⟩
  · rw [hsa]; simp [writeBytes]
  · rw [hsa]; simp [writeBytes]
  · rw [hsa]; simp [writeBytes]
  · intro a ha
    rw [hsa]
    simp only [writeBytes, List.length_cons, List.length_nil]
    rw [if_neg (by omega)]

/-- Witness for C9 at the concrete time tmEx (minute 45) on the all-zero
device. -/
theorem ds3231_alarm2_match_min_witness :
    ds3231_alarm_bytes DS3231_ALARM_2 tmEx 0 tmEx DS3231_ALARM2_MATCH_MIN
      = [dec2bcd (45 : Int).toNat, 0x80, 0x80] ∧
    (ds3231_set_alarm dev0 DS3231_ALARM_2 tmEx 0 tmEx DS3231_ALARM2_MATCH_MIN).snd.reg 0x0b
      = dec2bcd (45 : Int).toNat :=
  ⟨(ds3231_alarm2_match_min dev0 tmEx 0 tmEx (by decide) (by decide) rfl).1,
   (ds3231_alarm2_match_min dev0 tmEx 0 tmEx (by decide) (by decide) rfl).2.2.1⟩

/-- C10: target DS3231_ALARM_NONE (enum value 0) is not a no-op: set-alarm
then encodes both alarm blocks, 7 bytes in all, writes them starting at the
Alarm1 base address 0x07, and behaves identically to target
DS3231_ALARM_BOTH. -/
theorem ds3231_alarm_none_is_both (d : Device) (t1 : tm) (o1 : Nat) (t2 : tm) (o2 : Nat) :
    ds3231_set_alarm d DS3231_ALARM_NONE t1 o1 t2 o2
      = ds3231_set_alarm d DS3231_ALARM_BOTH t1 o1 t2 o2 ∧
    (ds3231_alarm_bytes DS3231_ALARM_NONE t1 o1 t2 o2).length = 7 ∧
    ds3231_set_alarm d DS3231_ALARM_NONE t1 o1 t2 o2
      = hal_i2c_write_reg d DS3231_ADDR_ALARM1 (ds3231_alarm_bytes DS3231_ALARM_NONE t1 o1 t2 o2) := by
  refine ⟨?_, ?_, ?_⟩
  · simp [ds3231_set_alarm, ds3231_alarm_bytes, DS3231_ALARM_NONE, DS3231_ALARM_BOTH,
      DS3231_ALARM_1, DS3231_ALARM_2]
  · simp [ds3231_alarm_bytes, DS3231_ALARM_NONE, DS3231_ALARM_1, DS3231_ALARM_2]
  · simp [ds3231_set_alarm, DS3231_ALARM_NONE, DS3231_ALARM_2]

/-- Witness for C10 at concrete arguments. -/
theorem ds3231_alarm_none_is_both_witness :
    ds3231_set_alarm dev0 DS3231_ALARM_NONE tmEx 2 tmEx 1
      = ds3231_set_alarm dev0 DS3231_ALARM_BOTH tmEx 2 tmEx 1 :=
  (ds3231_alarm_none_is_both dev0 tmEx 2 tmEx 1).1
